import Mathlib

/-!
Verification of the WikiCheck NLI / fact-checking service.

Shallow embedding of the inference service (`src/start.py`), its older
single-endpoint variant (`src/modules/api.py`) and the training pipeline
(`src/modules/model_trainer.py`).  Components of the repository that are not
present under `src/` (the `WikiFactChecker` complex model, the sentence-BERT
prediction pipeline and the `check_if_none` input normalizer from
`modules/utils/logging_utils.py`) are modelled from the specification; each
such definition carries a doc comment saying so.
-/

namespace WikiCheck

/-- NLI class labels: the three-way classification of the relationship between
a claim and an evidence sentence. -/
inductive NliLabel
  | entailment
  | contradiction
  | neutral
deriving DecidableEq, Repr

/-- The structured result of one inference call, mirroring the
`model_response` marshalling model of `start.py` lines 49-54 (fields `label`,
`contradiction_prob`, `entailment_prob`, `neutral_prob`).  Probabilities are
embedded as rationals. -/
structure Verdict where
  label : NliLabel
  contradiction_prob : ℚ
  entailment_prob : ℚ
  neutral_prob : ℚ
deriving DecidableEq, Repr

/-- Error taxonomy of the service (spec section 7): `invalidInput` is the
client-caused error naming the missing field, `inference` is a per-prediction
internal failure. -/
inductive ApiError
  | invalidInput (field : String)
  | inference (msg : String)
deriving DecidableEq, Repr

/-- Fatal startup error (spec section 7, `ModelLoadError`). -/
inductive ModelLoadError
  | loadFailure (msg : String)
deriving DecidableEq, Repr

/-- Query string of an HTTP GET request, as an association list of
key-value pairs. -/
abbrev QueryArgs := List (String × String)

/-- Embedding of `request.args.get(key)`: the first value bound to `key`, or
`none` when the parameter is absent. -/
def argsGet (args : QueryArgs) (key : String) : Option String :=
  List.lookup key args

/-- Modelled from the spec: `check_if_none` lives in
`modules/utils/logging_utils.py`, which is not under `src/`; spec section 4.1
gives the contract of input normalization: "accepts two free-text strings.
If either is absent/empty, fails with an `InvalidInputError` naming which
field is missing". -/
def check_if_none (field : String) (v : Option String) : Except ApiError String :=
  match v with
  | none => .error (.invalidInput field)
  | some s => if s = "" then .error (.invalidInput field) else .ok s

/-- Modelled from the spec: the Model artifact and embedder/classifier head
(`modules/model_complex.py` and the sentence-BERT model are not under `src/`).
Spec sections 2 and 4.2 treat them as black boxes: for every (text, hypothesis)
pair the classifier head produces three raw class scores and a softmax turns
them into probabilities.  `rawWeight` records the post-exponential softmax
weights, which are strictly positive since `exp` is; `inferenceFails` marks
the pairs on which the embedder or classifier head raises an internal error
(spec section 4.2, `InferenceError`).  Index order follows the label mapping
of `model_trainer.py` line 36: 0 = contradiction, 1 = entailment,
2 = neutral. -/
structure Model where
  rawWeight : String → String → Fin 3 → ℚ
  rawWeight_pos : ∀ c e i, 0 < rawWeight c e i
  inferenceFails : String → String → Bool

/-- Softmax normalization of the classifier head's weights: probability of
class `i` for the given pair. -/
def probs (m : Model) (c e : String) (i : Fin 3) : ℚ :=
  m.rawWeight c e i / (m.rawWeight c e 0 + m.rawWeight c e 1 + m.rawWeight c e 2)

/-- Argmax over the three class probabilities with the first-maximum
(lowest-index) deterministic tie-break, the behaviour of `numpy.argmax`. -/
def argmax3 (p : Fin 3 → ℚ) : Fin 3 :=
  if p 1 ≤ p 0 ∧ p 2 ≤ p 0 then 0
  else if p 2 ≤ p 1 then 1
  else 2

/-- Class index to label name, per the mapping of `model_trainer.py`
line 36. -/
def int2label (i : Fin 3) : NliLabel :=
  if i = 0 then .contradiction else if i = 1 then .entailment else .neutral

/-- Modelled from the spec: the inference pipeline of spec section 4.2
(the `predict` method of the sentence-BERT model is not under `src/`):
embed, classify, softmax, argmax with deterministic tie-break, shape a
Verdict. -/
def predict (m : Model) (text hypothesis : String) : Verdict :=
  { label := int2label (argmax3 (probs m text hypothesis))
    contradiction_prob := probs m text hypothesis 0
    entailment_prob := probs m text hypothesis 1
    neutral_prob := probs m text hypothesis 2 }

/-- Modelled from the spec: spec section 4.2 failure contract — when the
embedder or classifier head raises an internal error the pipeline surfaces an
`InferenceError` distinct from `InvalidInputError`. -/
def tryPredict (m : Model) (text hypothesis : String) : Except ApiError Verdict :=
  if m.inferenceFails text hypothesis then .error (.inference "inference failed")
  else .ok (predict m text hypothesis)

/-- Modelled from the spec: `WikiFactChecker` (`modules/model_complex.py`) is
not under `src/`.  `model_level_two` is the NLI model which the nli_model
endpoint calls directly (`start.py` line 87); `retrieve` is the external
retrieval collaborator of spec sections 4.3 and 6 producing, for a claim, the
ordered list of (evidence sentence, article) candidates. -/
structure WikiFactChecker where
  model_level_two : Model
  retrieve : String → List (String × String)

/-- One entry of the `results` list of the fact-checking endpoint, mirroring
the `Record` marshalling model of `start.py` lines 56-64; `outcome` carries
either the Verdict or the reported per-pair failure. -/
structure FullRecord where
  claim : String
  text : String
  article : String
  outcome : Except ApiError Verdict

/-- Modelled from the spec: `WikiFactChecker.predict_all` is not under
`src/`.  Spec section 4.3: run the inference pipeline over each candidate
pair independently, preserving input order; per-pair failures are collected
and surfaced alongside successful Verdicts rather than aborting the whole
batch. -/
def predict_all (fc : WikiFactChecker) (claim : String) : List FullRecord :=
  (fc.retrieve claim).map (fun cand =>
    { claim := claim
      text := cand.1
      article := cand.2
      outcome := tryPredict fc.model_level_two claim cand.1 })

/-- The `/nli_model/` GET handler of `start.py` lines 78-95: it reads the
query parameters `text` and `hypothesis` (note: `text`, not `claim`, is what
line 80 reads even though lines 75-76 declare the parameter `claim`),
normalizes both, and calls `predict` on the pair.  The second component
counts how many model predictions the request invoked. -/
def nliGet (m : Model) (args : QueryArgs) : Except ApiError Verdict × Nat :=
  match check_if_none "text" (argsGet args "text") with
  | .error e => (.error e, 0)
  | .ok text =>
    match check_if_none "hypothesis" (argsGet args "hypothesis") with
    | .error e => (.error e, 0)
    | .ok hypothesis => (tryPredict m text hypothesis, 1)

/-- The `/fact_checking_model/` GET handler of `start.py` lines 104-119: it
reads the query parameter `claim`, normalizes it, and calls `predict_all`.
The second component counts how many per-candidate model inferences the
request invoked. -/
def factCheckingGet (fc : WikiFactChecker) (args : QueryArgs) :
    Except ApiError (List FullRecord) × Nat :=
  match check_if_none "claim" (argsGet args "claim") with
  | .error e => (.error e, 0)
  | .ok claim => (.ok (predict_all fc claim), (fc.retrieve claim).length)

/-- The state the request handlers close over: the one `complex_model`
loaded at module level (`start.py` line 38). -/
structure ServerState where
  complex_model : WikiFactChecker

/-- An inbound request to one of the two routed endpoints. -/
inductive Request
  | nli (args : QueryArgs)
  | factCheck (args : QueryArgs)

/-- A response of the service. -/
inductive Response
  | verdict (v : Verdict)
  | results (rs : List FullRecord)
  | clientError (e : ApiError)

/-- Dispatch of one request to its handler.  Both handlers of `start.py`
only read `complex_model`; the state is returned unchanged. -/
def handleRequest (s : ServerState) : Request → Response × ServerState
  | .nli args =>
    (match (nliGet s.complex_model.model_level_two args).1 with
     | .ok v => .verdict v
     | .error e => .clientError e, s)
  | .factCheck args =>
    (match (factCheckingGet s.complex_model args).1 with
     | .ok rs => .results rs
     | .error e => .clientError e, s)

/-- Sequential processing of a trace of requests, threading the server
state. -/
def runTrace : ServerState → List Request → List Response × ServerState
  | s, [] => ([], s)
  | s, r :: rs =>
    ((handleRequest s r).1 :: (runTrace (handleRequest s r).2 rs).1,
     (runTrace (handleRequest s r).2 rs).2)

/-- The static configuration file read at process start (`start.py` lines
31-33), embedded as an association list of string entries. -/
structure Config where
  entries : List (String × String)

/-- Embedding of `config.get(key, dflt)`. -/
def configGet (c : Config) (key dflt : String) : String :=
  (List.lookup key c.entries).getD dflt

/-- The HTTP server once it has started accepting traffic, with the values
bound at startup (`start.py` lines 41-47 and 126-127). -/
structure RunningServer where
  state : ServerState
  port : Nat
  host : String
  apiVersion : String
  title : String
  nsDescription : String

/-- Startup sequence of `start.py`: construct the `WikiFactChecker` from the
config (line 38; the constructor itself is not under `src/`, so it is passed
as the `loader` capability of spec section 4.4, which may fail with
`ModelLoadError`), then bind the Api metadata (lines 45-46: `api_version` and
`model_name` are looked up in the config with defaults, the title
`WikiCheck API` is a literal) and run the app (line 127: port 80 and host
0.0.0.0 are literals).  If loading fails, no `RunningServer` is produced. -/
def startServer (loader : Config → Except ModelLoadError WikiFactChecker)
    (cfg : Config) : Except ModelLoadError RunningServer :=
  match loader cfg with
  | .error e => .error e
  | .ok m =>
    .ok { state := { complex_model := m }
          port := 80
          host := "0.0.0.0"
          apiVersion := configGet cfg "api_version" "0.0"
          title := "WikiCheck API"
          nsDescription := configGet cfg "model_name" "Wikipedia NLI model" }

/-- Decides whether a handler outcome is the client-error response for a
missing or empty input field. -/
def isInvalidInput {α : Type} : Except ApiError α → Bool
  | .error (.invalidInput _) => true
  | _ => false

/-- Label-to-id mapping for the SNLI dataset (`model_trainer.py` line 36). -/
def snliLabel2int (l : String) : Option Nat :=
  if l = "contradiction" then some 0
  else if l = "entailment" then some 1
  else if l = "neutral" then some 2
  else none

/-- Label-to-id mapping of the FEVER branch (`model_trainer.py` line 38). -/
def feverLabel2int (l : String) : Option Nat :=
  if l = "SUPPORTS" then some 1
  else if l = "REFUTES" then some 0
  else none

/-- The `label2int` mapping every `BertTrainer` instance ends up with:
`BertTrainer.__init__` (`model_trainer.py` lines 34-38) sets the local
`dataset = 'snli'` and branches on it.  A dictionary lookup that misses is a
`KeyError`, embedded as `none`. -/
def trainerLabel2int : String → Option Nat :=
  let dataset := "snli"
  if dataset = "snli" then snliLabel2int else feverLabel2int

/-- One row produced by `_create_examples_fever`: (guid, sentence1,
sentence2, label), accessed as `row[0] .. row[3]` in
`preparing_data_fever`. -/
structure FeverRow where
  guid : String
  s1 : String
  s2 : String
  label : String

/-- An `InputExample` as built in the preparation loops of
`model_trainer.py` (guid, two texts, numeric label). -/
structure InputExample where
  guid : String
  texts : List String
  label : Nat

/-- Errors raised by the data-preparation loops. -/
inductive TrainError
  | keyError (k : String)
deriving DecidableEq, Repr

/-- One iteration of the preparation loop of `preparing_data_fever`
(`model_trainer.py` lines 112-120): `label_id = self.label2int[row[3]]`
raises `KeyError` when the label is not a key of the mapping, otherwise an
`InputExample` is built. -/
def rowToExample (label2int : String → Option Nat) (row : FeverRow) :
    Except TrainError InputExample :=
  match label2int row.label with
  | none => .error (.keyError row.label)
  | some labelId => .ok { guid := row.guid, texts := [row.s1, row.s2], label := labelId }

/-- The preparation loop over a list of rows: a `KeyError` on any row aborts
the loop without producing the sample list. -/
def prepareSamples (label2int : String → Option Nat) :
    List FeverRow → Except TrainError (List InputExample)
  | [] => .ok []
  | r :: rs =>
    match rowToExample label2int r with
    | .error e => .error e
    | .ok ex =>
      match prepareSamples label2int rs with
      | .error e => .error e
      | .ok exs => .ok (ex :: exs)

/-- Embedding of `BertTrainer.train_model` (`model_trainer.py` lines
192-217): the loop body of each of the `number_of_epochs` iterations fits the
model for one epoch (`self.model.fit`), then appends the dev-set evaluation
and the test-set evaluation of the freshly fitted state.  The library calls
`fit`, `evalDev` (the `dev_evaluator`) and `evalTest` (the `test_evaluator`)
are passed as black-box functions over an abstract model state `σ`; the
result is the returned pair `(validation_performance, test_performance)`
together with the final model state. -/
def train_model {σ α : Type} (fit : σ → σ) (evalDev evalTest : σ → α) :
    Nat → σ → (List α × List α) × σ
  | 0, s => (([], []), s)
  | n + 1, s =>
    ((evalDev (fit s) :: (train_model fit evalDev evalTest n (fit s)).1.1,
      evalTest (fit s) :: (train_model fit evalDev evalTest n (fit s)).1.2),
     (train_model fit evalDev evalTest n (fit s)).2)

/-- Softmax weights of the demo model: (1, 3, 2) for every pair. -/
def demoWeights : Fin 3 → ℚ
  | 0 => 1
  | 1 => 3
  | 2 => 2

/-- A concrete model instance used to witness the theorems: softmax weights
(1, 3, 2) for every pair, no internal inference failure. -/
def demoModel : Model where
  rawWeight := fun _ _ => demoWeights
  rawWeight_pos := by
    intro c e i
    show 0 < demoWeights i
    fin_cases i <;> decide
  inferenceFails := fun _ _ => false

/-- A concrete fact checker: the demo model plus a retrieval collaborator
returning one candidate sentence for every claim. -/
def demoChecker : WikiFactChecker where
  model_level_two := demoModel
  retrieve := fun _ => [("The Eiffel Tower is located in Paris, France.", "Eiffel Tower")]

/-- An empty configuration file. -/
def demoCfg : Config := ⟨[]⟩

/-- A loader that succeeds with the demo checker. -/
def demoLoader : Config → Except ModelLoadError WikiFactChecker :=
  fun _ => .ok demoChecker

/-- A loader whose weights are missing: loading fails. -/
def failLoader : Config → Except ModelLoadError WikiFactChecker :=
  fun _ => .error (.loadFailure "weights missing")

/-- The running server obtained by starting with the demo loader and the
empty configuration. -/
def demoServer : RunningServer :=
  { state := { complex_model := demoChecker }
    port := 80
    host := "0.0.0.0"
    apiVersion := "0.0"
    title := "WikiCheck API"
    nsDescription := "Wikipedia NLI model" }

/-- A configuration that names a port, a host and an api version. -/
def cfgPort8001 : Config :=
  ⟨[("port", "8001"), ("host", "127.0.0.1"), ("api_version", "1.2")]⟩

/-- The query arguments of the documented nli_model request of spec
section 6. -/
def c2Args : QueryArgs :=
  [("claim", "The Eiffel Tower is in Paris"),
   ("hypothesis", "The Eiffel Tower is located in Paris, France")]

/-- A FEVER-style row carrying the label SUPPORTS. -/
def feverRowS : FeverRow :=
  { guid := "train_s-1", s1 := "a claim", s2 := "an evidence", label := "SUPPORTS" }

lemma check_if_none_missing (field : String) (v : Option String)
    (h : v = none ∨ v = some "") :
    check_if_none field v = .error (.invalidInput field) := by
  rcases h with h | h <;> subst h <;> simp [check_if_none]

/-- C1: for every GET request to `/nli_model/` or `/fact_checking_model/` in
which a required parameter of the endpoint (`text` or `hypothesis` for the
former, `claim` for the latter) is absent or the empty string, the handler
returns the invalid-input client-error response, never a Verdict, and no
model prediction is invoked for that request. -/
theorem missing_param_client_error (m : Model) (fc : WikiFactChecker) (args : QueryArgs) :
    ((argsGet args "text" = none ∨ argsGet args "text" = some "" ∨
      argsGet args "hypothesis" = none ∨ argsGet args "hypothesis" = some "") →
      isInvalidInput (nliGet m args).1 = true ∧ (nliGet m args).2 = 0) ∧
    ((argsGet args "claim" = none ∨ argsGet args "claim" = some "") →
      isInvalidInput (factCheckingGet fc args).1 = true ∧ (factCheckingGet fc args).2 = 0) := by
  constructor
  · intro h
    unfold nliGet
    rcases ht : argsGet args "text" with _ | s
    · rw [check_if_none_missing "text" none (Or.inl rfl)]
      simp [isInvalidInput]
    · by_cases hs : s = ""
      · subst hs
        rw [check_if_none_missing "text" (some "") (Or.inr rfl)]
        simp [isInvalidInput]
      · have hok : check_if_none "text" (some s) = .ok s := by
          simp [check_if_none, hs]
        rw [hok]
        have hh : argsGet args "hypothesis" = none ∨ argsGet args "hypothesis" = some "" := by
          rcases h with h | h | h | h

          · rw [ht] at h; exact absurd h (by simp)
          · rw [ht] at h
            exact absurd h (by simp [hs])
          · exact Or.inl h
          · exact Or.inr h
        rw [check_if_none_missing "hypothesis" _ hh]
        simp [isInvalidInput]
  · intro h
    unfold factCheckingGet
    rw [check_if_none_missing "claim" _ h]
    simp [isInvalidInput]

/-- Witness for C1: the request with no query parameters at all is answered
by both endpoints with an invalid-input client error and zero model
invocations. -/
theorem missing_param_client_error_witness :
    (isInvalidInput (nliGet demoModel []).1 = true ∧ (nliGet demoModel []).2 = 0) ∧
    (isInvalidInput (factCheckingGet demoChecker []).1 = true ∧
      (factCheckingGet demoChecker []).2 = 0) :=
  ⟨(missing_param_client_error demoModel demoChecker []).1 (Or.inl rfl),
   (missing_param_client_error demoModel demoChecker []).2 (Or.inl rfl)⟩

/-- C2 (code behaviour at the failing input): the documented request
`GET /nli_model/?claim=...&hypothesis=...` of spec section 6 carries both
declared parameters, yet the handler — which reads the parameter `text`
(`start.py` line 80) although the route declares `claim`
(`start.py` line 75) — never sees the claim value: it answers with the
invalid-input error for the absent field `text` and invokes no prediction,
instead of returning a Verdict for the (claim, hypothesis) pair. -/
theorem nli_handler_reads_text_not_claim :
    argsGet c2Args "claim" = some "The Eiffel Tower is in Paris" ∧
    argsGet c2Args "hypothesis" = some "The Eiffel Tower is located in Paris, France" ∧
    nliGet demoModel c2Args = (.error (.invalidInput "text"), 0) :=
  ⟨rfl, rfl, rfl⟩

/-- C10: every `BertTrainer` instance carries the 3-way SNLI label mapping —
the FEVER branch of the constructor is dead since the local `dataset` is the
literal `'snli'` — and therefore the per-row lookup of
`preparing_data_fever` raises a `KeyError` (rather than producing a sample)
on any row labelled SUPPORTS or REFUTES, and the preparation loop over a row
list containing such a row never returns a sample list. -/
theorem fever_labels_key_error :
    trainerLabel2int = snliLabel2int ∧
    (∀ row : FeverRow, row.label = "SUPPORTS" ∨ row.label = "REFUTES" →
      rowToExample trainerLabel2int row = .error (.keyError row.label)) ∧
    (∀ rows : List FeverRow, ∀ r ∈ rows,
      (r.label = "SUPPORTS" ∨ r.label = "REFUTES") →
      ∀ exs, prepareSamples trainerLabel2int rows ≠ .ok exs) := by
  have hmap : trainerLabel2int = snliLabel2int := rfl
  have hrow : ∀ row : FeverRow, row.label = "SUPPORTS" ∨ row.label = "REFUTES" →
      rowToExample trainerLabel2int row = .error (.keyError row.label) := by
    intro row h
    unfold rowToExample
    rcases h with h | h <;> rw [h, hmap] <;> rfl
  refine ⟨hmap, hrow, ?_⟩
  intro rows
  induction rows with
  | nil =>
    intro r hr
    exact absurd hr (List.not_mem_nil r)
  | cons a as ih =>
    intro r hr hlab exs hok
    unfold prepareSamples at hok
    rcases List.mem_cons.mp hr with h | h
    · subst h
      rw [hrow r hlab] at hok
      exact Except.noConfusion hok
    · rcases hra : rowToExample trainerLabel2int a with e | ex
      · rw [hra] at hok
        exact Except.noConfusion hok
      · rw [hra] at hok
        rcases hps : prepareSamples trainerLabel2int as with e | exs2
        · rw [hps] at hok
          exact Except.noConfusion hok
        · exact ih r h hlab exs2 hps

/-- Witness for C10: a concrete SUPPORTS-labelled row is mapped to a
KeyError, and the preparation loop over the one-row list never returns a
sample list. -/
theorem fever_labels_key_error_witness :
    rowToExample trainerLabel2int feverRowS = .error (.keyError "SUPPORTS") ∧
    prepareSamples trainerLabel2int [feverRowS] ≠ .ok [] :=
  ⟨fever_labels_key_error.2.1 feverRowS (Or.inl rfl),
   fever_labels_key_error.2.2 [feverRowS] feverRowS (List.mem_singleton.mpr rfl)
     (Or.inl rfl) []⟩

/-- C3: the batch fact-check over a claim with N retrieved evidence
candidates returns a results list with exactly N entries; the i-th entry is
built from the i-th candidate (same order), carries the originating claim,
text and article, and carries that pair's inference outcome — a failure of
one pair is reported in its own entry rather than dropped or aborting the
rest. -/
theorem predict_all_batch_shape (fc : WikiFactChecker) (claim : String) :
    (predict_all fc claim).length = (fc.retrieve claim).length ∧
    ∀ i : Nat, (predict_all fc claim).get? i = ((fc.retrieve claim).get? i).map
      (fun cand =>
        { claim := claim
          text := cand.1
          article := cand.2
          outcome := tryPredict fc.model_level_two claim cand.1 }) := by
  constructor
  · simp [predict_all]
  · intro i
    simp [predict_all, List.get?_map]

lemma probs_nonneg (m : Model) (c e : String) (i : Fin 3) : 0 ≤ probs m c e i := by
  have h0 := m.rawWeight_pos c e 0
  have h1 := m.rawWeight_pos c e 1
  have h2 := m.rawWeight_pos c e 2
  have hi := m.rawWeight_pos c e i
  unfold probs
  exact div_nonneg hi.le (by linarith)

lemma probs_le_one (m : Model) (c e : String) (i : Fin 3) : probs m c e i ≤ 1 := by
  have h0 := m.rawWeight_pos c e 0
  have h1 := m.rawWeight_pos c e 1
  have h2 := m.rawWeight_pos c e 2
  unfold probs
  rw [div_le_one (by linarith)]
  fin_cases i <;> simp <;> linarith

lemma probs_sum (m : Model) (c e : String) :
    probs m c e 0 + probs m c e 1 + probs m c e 2 = 1 := by
  have h0 := m.rawWeight_pos c e 0
  have h1 := m.rawWeight_pos c e 1
  have h2 := m.rawWeight_pos c e 2
  unfold probs
  rw [div_add_div_same, div_add_div_same, div_self (by linarith)]

lemma argmax3_is_max (p : Fin 3 → ℚ) (j : Fin 3) : p j ≤ p (argmax3 p) := by
  unfold argmax3
  split_ifs with h1 h2
  · fin_cases j
    · exact le_refl _
    · exact h1.1
    · exact h1.2
  · push_neg at h1
    have g0 : p 0 ≤ p 1 := by
      rcases le_or_lt (p 0) (p 1) with h | h
      · exact h
      · have := h1 h.le
        linarith
    fin_cases j
    · exact g0
    · exact le_refl _
    · exact h2
  · push_neg at h1
    push_neg at h2
    have g0 : p 0 ≤ p 2 := by
      rcases le_or_lt (p 1) (p 0) with h | h
      · have := h1 h
        linarith
      · linarith
    fin_cases j
    · exact g0
    · exact h2.le
    · exact le_refl _

lemma argmax3_first (p : Fin 3 → ℚ) (j : Fin 3) (hj : j < argmax3 p) :
    p j < p (argmax3 p) := by
  unfold argmax3 at hj ⊢
  split_ifs at hj ⊢ with h1 h2
  · have hv : (j : ℕ) < 0 := hj
    exact absurd hv (Nat.not_lt_zero _)
  · push_neg at h1
    have hv : (j : ℕ) < 1 := hj
    have hj0 : j = 0 := Fin.ext (by omega)
    subst hj0
    rcases le_or_lt (p 1) (p 0) with h | h
    · have := h1 h
      linarith
    · exact h
  · push_neg at h1
    push_neg at h2
    have hv : (j : ℕ) < 2 := hj
    have hj01 : (j : ℕ) = 0 ∨ (j : ℕ) = 1 := by omega
    rcases hj01 with hj0 | hj1
    · have hj0' : j = 0 := Fin.ext (by omega)
      subst hj0'
      rcases le_or_lt (p 1) (p 0) with h | h
      · have := h1 h
        linarith
      · linarith
    · have hj1' : j = 1 := Fin.ext (by omega)
      subst hj1'
      exact h2

/-- C4: for every (claim, evidence) pair the Verdict produced by the
inference pipeline has its three probabilities each in [0, 1], the three sum
to exactly 1, its label is the argmax of the three probabilities, and the
argmax index carries the maximal probability with the fixed lowest-index
tie-break: every strictly smaller index has strictly smaller probability. -/
theorem verdict_well_formed (m : Model) (c e : String) :
    0 ≤ (predict m c e).contradiction_prob ∧ (predict m c e).contradiction_prob ≤ 1 ∧
    0 ≤ (predict m c e).entailment_prob ∧ (predict m c e).entailment_prob ≤ 1 ∧
    0 ≤ (predict m c e).neutral_prob ∧ (predict m c e).neutral_prob ≤ 1 ∧
    (predict m c e).contradiction_prob + (predict m c e).entailment_prob +
      (predict m c e).neutral_prob = 1 ∧
    (predict m c e).label = int2label (argmax3 (probs m c e)) ∧
    (∀ j : Fin 3, probs m c e j ≤ probs m c e (argmax3 (probs m c e))) ∧
    (∀ j : Fin 3, j < argmax3 (probs m c e) →
      probs m c e j < probs m c e (argmax3 (probs m c e))) :=
  ⟨probs_nonneg m c e 0, probs_le_one m c e 0,
   probs_nonneg m c e 1, probs_le_one m c e 1,
   probs_nonneg m c e 2, probs_le_one m c e 2,
   probs_sum m c e, rfl,
   fun j => argmax3_is_max (probs m c e) j,
   fun j hj => argmax3_first (probs m c e) j hj⟩

/-- Witness for C4: on the demo model the argmax is the entailment index 1,
and the theorem's tie-break conjunct applied at index 0 gives the strict
inequality below it. -/
theorem verdict_well_formed_witness :
    argmax3 (probs demoModel "a" "b") = 1 ∧
    probs demoModel "a" "b" 0 < probs demoModel "a" "b" (argmax3 (probs demoModel "a" "b")) := by
  have h : argmax3 (probs demoModel "a" "b") = 1 := by
    norm_num [argmax3, probs, demoModel, demoWeights]
  exact ⟨h, (verdict_well_formed demoModel "a" "b").2.2.2.2.2.2.2.2.2 0 (by rw [h]; decide)⟩

/-- C5: request handling is a deterministic, pure function of the server
state and the request: handling leaves the state (and hence the loaded model
artifact) unchanged, and handling the identical request again from the
resulting state produces the identical response and state — bit-identical
probabilities and label. -/
theorem handle_request_deterministic_stateless (s : ServerState) (r : Request) :
    (handleRequest s r).2 = s ∧
    handleRequest (handleRequest s r).2 r = handleRequest s r := by
  have h : (handleRequest s r).2 = s := by cases r <;> rfl
  exact ⟨h, by rw [h]⟩

lemma handleRequest_frame (s : ServerState) (r : Request) : (handleRequest s r).2 = s := by
  cases r <;> rfl

lemma runTrace_frame (reqs : List Request) :
    ∀ s : ServerState, (runTrace s reqs).2 = s := by
  induction reqs with
  | nil => intro s; rfl
  | cons r rs ih =>
    intro s
    show (runTrace (handleRequest s r).2 rs).2 = s
    rw [handleRequest_frame, ih]

lemma runTrace_responses (reqs : List Request) :
    ∀ s : ServerState,
      (runTrace s reqs).1 = reqs.map (fun r => (handleRequest s r).1) := by
  induction reqs with
  | nil => intro s; rfl
  | cons r rs ih =>
    intro s
    show (handleRequest s r).1 :: (runTrace (handleRequest s r).2 rs).1 = _
    rw [handleRequest_frame, ih, List.map_cons]

/-- C6: when startup succeeds, the served model is exactly the one the
loader produced from the config before traffic; processing any trace of
requests leaves the server state — hence the loaded model — unchanged, and
every response of the trace is computed against that same initial state. -/
theorem model_loaded_once_and_shared
    (loader : Config → Except ModelLoadError WikiFactChecker) (cfg : Config)
    (srv : RunningServer) (reqs : List Request)
    (h : startServer loader cfg = .ok srv) :
    (runTrace srv.state reqs).2 = srv.state ∧
    (runTrace srv.state reqs).1 = reqs.map (fun r => (handleRequest srv.state r).1) ∧
    ∃ m, loader cfg = .ok m ∧ srv.state.complex_model = m := by
  refine ⟨runTrace_frame reqs srv.state, runTrace_responses reqs srv.state, ?_⟩
  unfold startServer at h
  rcases hl : loader cfg with e | m
  · rw [hl] at h
    exact Except.noConfusion h
  · rw [hl] at h
    refine ⟨m, rfl, ?_⟩
    have := Except.ok.inj h
    rw [← this]

/-- Witness for C6: starting with the demo loader and the empty config, a
two-request trace changes nothing and is answered from the initial state. -/
theorem model_loaded_once_and_shared_witness :
    (runTrace demoServer.state [Request.nli [], Request.factCheck []]).2 = demoServer.state ∧
    (runTrace demoServer.state [Request.nli [], Request.factCheck []]).1 =
      [Request.nli [], Request.factCheck []].map
        (fun r => (handleRequest demoServer.state r).1) ∧
    ∃ m, demoLoader demoCfg = .ok m ∧ demoServer.state.complex_model = m :=
  model_loaded_once_and_shared demoLoader demoCfg demoServer
    [Request.nli [], Request.factCheck []] rfl

/-- C7: if loading the model at startup fails, startup propagates the
`ModelLoadError` and no running server is produced — and conversely any
running server was produced from a successful load whose model it serves;
there is no execution serving with an absent model. -/
theorem startup_aborts_on_load_failure
    (loader : Config → Except ModelLoadError WikiFactChecker) (cfg : Config) :
    (∀ e, loader cfg = .error e → startServer loader cfg = .error e) ∧
    (∀ srv, startServer loader cfg = .ok srv →
      ∃ m, loader cfg = .ok m ∧ srv.state.complex_model = m) := by
  constructor
  · intro e he
    unfold startServer
    rw [he]
  · intro srv h
    unfold startServer at h
    rcases hl : loader cfg with e | m
    · rw [hl] at h
      exact Except.noConfusion h
    · rw [hl] at h
      refine ⟨m, rfl, ?_⟩
      have := Except.ok.inj h
      rw [← this]

/-- Witness for C7: the loader with missing weights makes startup abort with
that very error. -/
theorem startup_aborts_on_load_failure_witness :
    startServer failLoader demoCfg = .error (.loadFailure "weights missing") :=
  (startup_aborts_on_load_failure failLoader demoCfg).1
    (.loadFailure "weights missing") rfl

/-- C8 counterexample: a configuration file that names port 8001 and host
127.0.0.1 still yields a server bound to port 80 and host 0.0.0.0 — the
network binding of `start.py` line 127 is fixed in code, not taken from the
configuration file, refuting the claim that all startup configuration
including port and host comes from the config file. -/
theorem port_host_hardcoded_counterexample :
    configGet cfgPort8001 "port" "" = "8001" ∧
    configGet cfgPort8001 "host" "" = "127.0.0.1" ∧
    (startServer demoLoader cfgPort8001).toOption.map RunningServer.port = some 80 ∧
    (startServer demoLoader cfgPort8001).toOption.map RunningServer.host = some "0.0.0.0" :=
  ⟨rfl, rfl, rfl, rfl⟩

/-- C8 (amended): the API version string and the namespace display name are
taken from the static configuration file read at startup (with defaults
`0.0` and `Wikipedia NLI model`), and the model is built by the loader from
that same config; but the bound network port (80), the host (0.0.0.0) and
the API title (`WikiCheck API`) are fixed in code, not configuration. -/
theorem startup_config_resolution
    (loader : Config → Except ModelLoadError WikiFactChecker) (cfg : Config)
    (srv : RunningServer) (h : startServer loader cfg = .ok srv) :
    srv.port = 80 ∧ srv.host = "0.0.0.0" ∧ srv.title = "WikiCheck API" ∧
    srv.apiVersion = configGet cfg "api_version" "0.0" ∧
    srv.nsDescription = configGet cfg "model_name" "Wikipedia NLI model" ∧
    ∃ m, loader cfg = .ok m ∧ srv.state.complex_model = m := by
  unfold startServer at h
  rcases hl : loader cfg with e | m
  · rw [hl] at h
    exact Except.noConfusion h
  · rw [hl] at h
    have hs := Except.ok.inj h
    rw [← hs]
    exact ⟨rfl, rfl, rfl, rfl, rfl, m, rfl, rfl⟩

/-- Witness for C8 (amended): at the config that names port 8001 the started
server still has port 80, host 0.0.0.0 and title `WikiCheck API`, while its
version string is the config's `1.2`. -/
theorem startup_config_resolution_witness :
    (∃ srv, startServer demoLoader cfgPort8001 = .ok srv ∧
      srv.port = 80 ∧ srv.host = "0.0.0.0" ∧ srv.title = "WikiCheck API" ∧
      srv.apiVersion = configGet cfgPort8001 "api_version" "0.0") := by
  rcases hs : startServer demoLoader cfgPort8001 with e | srv
  · exact Except.noConfusion hs
  · have h := startup_config_resolution demoLoader cfgPort8001 srv hs
    exact ⟨srv, rfl, h.1, h.2.1, h.2.2.1, h.2.2.2.1⟩

/-- C9: for every number of epochs n and every initial model state,
`train_model` returns two lists — validation performance and test
performance — each of length exactly n, whose i-th entries are the dev-set
and test-set evaluations of the model state reached after i+1 fit calls,
i.e. recorded immediately after the i-th epoch, in epoch order. -/
theorem train_model_epochs {σ α : Type} (fit : σ → σ) (evalDev evalTest : σ → α)
    (n : Nat) (s : σ) :
    ((train_model fit evalDev evalTest n s).1.1).length = n ∧
    ((train_model fit evalDev evalTest n s).1.2).length = n ∧
    ∀ i : Nat, i < n →
      ((train_model fit evalDev evalTest n s).1.1).get? i = some (evalDev (fit^[i + 1] s)) ∧
      ((train_model fit evalDev evalTest n s).1.2).get? i = some (evalTest (fit^[i + 1] s)) := by
  induction n generalizing s with
  | zero =>
    refine ⟨rfl, rfl, ?_⟩
    intro i hi
    exact absurd hi (Nat.not_lt_zero i)
  | succ n ih =>
    obtain ⟨ihv, iht, ihget⟩ := ih (fit s)
    refine ⟨?_, ?_, ?_⟩
    · show (evalDev (fit s) :: (train_model fit evalDev evalTest n (fit s)).1.1).length = n + 1
      rw [List.length_cons, ihv]
    · show (evalTest (fit s) :: (train_model fit evalDev evalTest n (fit s)).1.2).length = n + 1
      rw [List.length_cons, iht]
    · intro i hi
      match i with
      | 0 =>
        constructor
        · show some (evalDev (fit s)) = some (evalDev (fit^[0 + 1] s))
          rw [Function.iterate_one]
        · show some (evalTest (fit s)) = some (evalTest (fit^[0 + 1] s))
          rw [Function.iterate_one]
      | Nat.succ j =>
        have hj : j < n := Nat.lt_of_succ_lt_succ hi
        obtain ⟨hv, ht⟩ := ihget j hj
        constructor
        · show ((train_model fit evalDev evalTest n (fit s)).1.1).get? j =
            some (evalDev (fit^[j + 1 + 1] s))
          rw [hv, Function.iterate_succ_apply fit (j + 1) s]
        · show ((train_model fit evalDev evalTest n (fit s)).1.2).get? j =
            some (evalTest (fit^[j + 1 + 1] s))
          rw [ht, Function.iterate_succ_apply fit (j + 1) s]

/-- Witness for C9: two epochs over the state 0 with fit = successor,
dev evaluation = identity and test evaluation = add 100: the second entries
of the two returned lists are the evaluations of the state after two fit
calls. -/
theorem train_model_epochs_witness :
    ((train_model Nat.succ (fun s => s) (fun s => s + 100) 2 0).1.1).get? 1 =
      some ((fun s => s) (Nat.succ^[1 + 1] 0)) ∧
    ((train_model Nat.succ (fun s => s) (fun s => s + 100) 2 0).1.2).get? 1 =
      some ((fun s => s + 100) (Nat.succ^[1 + 1] 0)) :=
  (train_model_epochs Nat.succ (fun s => s) (fun s => s + 100) 2 0).2.2 1
    (by decide)

end WikiCheck
